import Mathlib

/-!
Verification of the camunda-modeler presentation-layer excerpt:
a shallow embedding of `MultiSheetTab` (sheet reconciliation and sheet
switching), the `FormEditor` wrapper (import / dirty-state machine) and
the engine-profile selector, with theorems settling the specification
claims against these definitions.

Conventions of the embedding:
* JS objects become structures; `null` / `undefined` fields become `Option`.
* Provider identity (JS reference equality on provider objects) is
  modelled by a numeric provider id carried on each sheet.
* The stable JS `Array.prototype.sort` is modelled by insertion sort
  (stable sorts by a total preorder agree pointwise).
* Methods become pure functions from the relevant cached state and
  inputs to the new state plus a record of the observable effects
  (callbacks invoked, flags).
-/

/-- A sheet of a multi-sheet tab: `{ id, name, provider, type, order }`.
The `provider` field stands for the identity of the provider object;
`order` is `none` when the JS object lacks an `order` field. -/
structure Sheet where
  id : String
  name : Option String
  provider : Nat
  type : String
  order : Option Int
  deriving DecidableEq, Repr

/-- JS `t.order || 0`: an absent (`undefined`) or zero order yields `0`. -/
def orderKey (t : Sheet) : Int :=
  t.order.getD 0

namespace MultiSheetTab

/-- `MultiSheetTab.sheetsChanged(newSheets, newActiveSheet)`:
filter out the active provider's sheets, concat the new sheets wired to
the active provider, default every `order` via `t.order || 0`, sort
ascending by `order`, and re-resolve the active sheet by id when a new
active sheet is supplied. Returns the new cached `(sheets, activeSheet)`;
the returned active sheet is `none` when `find` yields `undefined`. -/
def sheetsChanged (sheets0 : List Sheet) (activeSheet : Sheet)
    (newSheets : List Sheet) (newActiveSheet : Option Sheet) :
    List Sheet × Option Sheet :=
  let provider := activeSheet.provider
  let wiredNewSheets := newSheets.map (fun newSheet => { newSheet with provider := provider })
  let sheets :=
    ((sheets0.filter (fun sheet => sheet.provider != provider)) ++ wiredNewSheets).map
      (fun t => { t with order := some (orderKey t) })
  let sheets := List.insertionSort (fun a b => orderKey a ≤ orderKey b) sheets
  let active : Option Sheet :=
    match newActiveSheet with
    | some na => sheets.find? (fun s => s.id == na.id)
    | none => some activeSheet
  (sheets, active)

/-- The part of the `MultiSheetTab` cached state touched by `switchSheet`. -/
structure SwitchState where
  activeSheet : Sheet
  lastXML : Option String
  deriving DecidableEq, Repr

/-- `MultiSheetTab.switchSheet(sheet)`: no-op on the active sheet itself;
for a sheet of the same provider only the active sheet is swapped; for a
different provider the editor's `getXML()` (whose result is modelled by
`editorXML`) is awaited and cached as `lastXML` together with the swap.
The boolean records whether `getXML` was invoked. -/
def switchSheet (st : SwitchState) (sheet : Sheet) (editorXML : String) :
    SwitchState × Bool :=
  if sheet = st.activeSheet then
    (st, false)
  else if sheet.provider = st.activeSheet.provider then
    ({ st with activeSheet := sheet }, false)
  else
    ({ activeSheet := sheet, lastXML := some editorXML }, true)

end MultiSheetTab

/-- An engine profile `{ executionPlatform, executionPlatformVersion }`.
The version may be `undefined` on imported schemas, hence `Option`. -/
structure EngineProfile where
  executionPlatform : String
  executionPlatformVersion : Option String
  deriving DecidableEq, Repr

/-- `engineProfilesEqual(a, b)` from `EngineProfile.js`: both non-nil and
their `executionPlatform` and `executionPlatformVersion` fields agree. -/
def engineProfilesEqual (a b : Option EngineProfile) : Bool :=
  match a, b with
  | some a, some b =>
    a.executionPlatform == b.executionPlatform
      && a.executionPlatformVersion == b.executionPlatformVersion
  | _, _ => false

namespace EngineProfileSelection

/-- Observable outcome of the `Apply` handler of the engine-profile
selection popover: the profile passed to `props.setEngineProfile` (if
called), whether `onClose` ran, and the local validation-error state. -/
structure ApplyResult where
  setEngineProfileCalledWith : Option EngineProfile
  closed : Bool
  error : Option Bool
  deriving DecidableEq, Repr

/-- The `setEngineProfile` closure of `EngineProfileSelection` (the
`Apply` button handler): with no staged selection it sets the validation
error and returns; with a selection equal to the current profile it
returns silently; otherwise it forwards the selection and closes. -/
def setEngineProfile (selectedEngineProfile : Option EngineProfile)
    (engineProfile : Option EngineProfile) (error0 : Option Bool) : ApplyResult :=
  match selectedEngineProfile with
  | none =>
    { setEngineProfileCalledWith := none, closed := false, error := some true }
  | some selected =>
    if engineProfilesEqual (some selected) engineProfile then
      { setEngineProfileCalledWith := none, closed := false, error := error0 }
    else
      { setEngineProfileCalledWith := some selected, closed := true, error := error0 }

end EngineProfileSelection

namespace FormEditor

/-- The `FormEditor` cached state touched by the claims:
`lastSchema` (last successfully imported / serialized document),
`stackIdx` (baseline command-stack position) and `engineProfile`.
The live `form` instance itself stays external; its observable bits
(current `commandStack._stackIdx`, `form.getSchema()` metadata,
serialization output) are passed to the functions that read them. -/
structure Cached where
  lastSchema : Option String
  stackIdx : Int
  engineProfile : Option EngineProfile
  deriving DecidableEq, Repr

/-- `FormEditor.isDirty()`: `commandStack._stackIdx !== stackIdx`. -/
def isDirty (cached : Cached) (curStackIdx : Int) : Bool :=
  curStackIdx != cached.stackIdx

/-- `FormEditor.isImportNeeded(prevProps)`: no import while one is in
flight, none when the `xml` prop did not change, otherwise exactly when
it differs from the cached `lastSchema`. `prevSchema` is `none` for the
mount-time call where `prevProps` is `{}`. -/
def isImportNeeded (importing : Bool) (schema : String)
    (prevSchema : Option String) (lastSchema : Option String) : Bool :=
  if importing then
    false
  else if some schema == prevSchema then
    false
  else
    some schema != lastSchema

/-- `FormEditor.checkImport(prevProps)`: runs `importSchema()` exactly
when `isImportNeeded(prevProps)` holds; the boolean returned records
whether `importSchema` was invoked. -/
def checkImport (importing : Bool) (schema : String)
    (prevSchema : Option String) (lastSchema : Option String) : Bool :=
  isImportNeeded importing schema prevSchema lastSchema

/-- Outcome of `FormEditor.handleImport(error, warnings)`: the new cached
state, the `importing` flag, and the arguments of the `onImport` call
(`onImportWarnings` models its second argument, which the code never
passes, hence it can only come out `none`). -/
structure ImportResult where
  cached : Cached
  importing : Bool
  onImportError : Option String
  onImportWarnings : Option (List String)
  deriving DecidableEq, Repr

/-- `FormEditor.handleImport(error, warnings)`: on error clear
`engineProfile` and `lastSchema`; on success cache the `xml` prop as
`lastSchema`, the current stack position as baseline, and an engine
profile exactly when `form.getSchema()` carries a defined
`executionPlatform` (`executionPlatform`/`executionPlatformVersion`
are passed in as `formEP`/`formEPVersion`). In both cases `importing`
is reset and `onImport(error)` is called - with the error alone. -/
def handleImport (cached : Cached) (curStackIdx : Int) (schema : String)
    (formEP : Option String) (formEPVersion : Option String)
    (error : Option String) (warnings : Option (List String)) : ImportResult :=
  let stackIdx := curStackIdx
  let _ := warnings
  match error with
  | some e =>
    { cached := { cached with engineProfile := none, lastSchema := none }
      importing := false
      onImportError := some e
      onImportWarnings := none }
  | none =>
    let engineProfile : Option EngineProfile :=
      match formEP with
      | some executionPlatform =>
        some { executionPlatform := executionPlatform,
               executionPlatformVersion := formEPVersion }
      | none => none
    { cached := { engineProfile := engineProfile,
                  lastSchema := some schema,
                  stackIdx := stackIdx }
      importing := false
      onImportError := none
      onImportWarnings := none }

/-- Outcome of `FormEditor.getXML()`: the returned document, the new
cached state, and whether `form.saveSchema()` was invoked. -/
structure GetXMLResult where
  xml : String
  cached : Cached
  serialized : Bool
  deriving DecidableEq, Repr

/-- JS `lastSchema || this.props.xml`: fall back when `lastSchema` is
nullish or the (falsy) empty string. -/
def jsOrString (a : Option String) (b : String) : String :=
  match a with
  | some s => if s = "" then b else s
  | none => b

/-- `FormEditor.getXML()`: when not dirty return
`lastSchema || this.props.xml` untouched; when dirty serialize the form
(result modelled by `saveSchemaJSON`), cache it as `lastSchema` together
with the current stack position, and return it. -/
def getXML (cached : Cached) (propsXml : String) (curStackIdx : Int)
    (saveSchemaJSON : String) : GetXMLResult :=
  let stackIdx := curStackIdx
  if !isDirty cached curStackIdx then
    { xml := jsOrString cached.lastSchema propsXml
      cached := cached
      serialized := false }
  else
    let schema := saveSchemaJSON
    { xml := schema
      cached := { cached with lastSchema := some schema, stackIdx := stackIdx }
      serialized := true }

end FormEditor

/-- Claim C9: equality as used by the engine-profile selector is
structural: on (non-nil) profiles `engineProfilesEqual` holds exactly
when both `executionPlatform` and `executionPlatformVersion` agree, and
it is symmetric and reflexive on profiles. -/
theorem engineProfilesEqual_structural (a b : EngineProfile) :
    (engineProfilesEqual (some a) (some b) = true ↔
      a.executionPlatform = b.executionPlatform ∧
        a.executionPlatformVersion = b.executionPlatformVersion)
    ∧ engineProfilesEqual (some a) (some b) = engineProfilesEqual (some b) (some a)
    ∧ engineProfilesEqual (some a) (some a) = true := by
  refine ⟨?_, ?_, ?_⟩
  · simp [engineProfilesEqual]
  · rw [Bool.eq_iff_iff]
    simp only [engineProfilesEqual, Bool.and_eq_true, beq_iff_eq]
    constructor <;> exact fun h => ⟨h.1.symm, h.2.symm⟩
  · simp [engineProfilesEqual]

/-- Claim C8: confirming (`Apply`) the engine-profile selection with no
staged selection never calls `props.setEngineProfile`, leaves the
overlay open, and sets the validation error. -/
theorem apply_no_selection (engineProfile : Option EngineProfile)
    (error0 : Option Bool) :
    (EngineProfileSelection.setEngineProfile none engineProfile error0).setEngineProfileCalledWith = none
    ∧ (EngineProfileSelection.setEngineProfile none engineProfile error0).closed = false
    ∧ (EngineProfileSelection.setEngineProfile none engineProfile error0).error = some true :=
  ⟨rfl, rfl, rfl⟩

/-- Claim C4: the form editor's dirty flag is decided solely by comparing
the current command-stack position with the cached baseline position:
it holds iff they differ, and any two cached states with equal baselines
(whatever their document contents) agree on it. -/
theorem isDirty_stack_position_only :
    (∀ (cached : FormEditor.Cached) (cur : Int),
        FormEditor.isDirty cached cur = true ↔ cur ≠ cached.stackIdx)
    ∧ ∀ (c1 c2 : FormEditor.Cached) (cur : Int),
        c1.stackIdx = c2.stackIdx →
        FormEditor.isDirty c1 cur = FormEditor.isDirty c2 cur := by
  constructor
  · intro cached cur
    simp [FormEditor.isDirty]
  · intro c1 c2 cur h
    simp [FormEditor.isDirty, h]

/-- Witness for C4 at concrete states differing only in document
contents. -/
theorem isDirty_stack_position_only_witness :
    ({ lastSchema := some "docA", stackIdx := 1, engineProfile := none } : FormEditor.Cached).stackIdx =
      ({ lastSchema := some "docB", stackIdx := 1, engineProfile := none } : FormEditor.Cached).stackIdx
    ∧ FormEditor.isDirty { lastSchema := some "docA", stackIdx := 1, engineProfile := none } 2 =
        FormEditor.isDirty { lastSchema := some "docB", stackIdx := 1, engineProfile := none } 2 :=
  ⟨rfl, isDirty_stack_position_only.2 _ _ 2 rfl⟩

/-- Claim C6: a successful import caches the imported schema as
`lastSchema`, the current stack position as the baseline, and an engine
profile exactly when the imported schema has a defined
`executionPlatform` (with its `executionPlatformVersion`), `none`
otherwise. -/
theorem handleImport_success (cached : FormEditor.Cached) (cur : Int)
    (schema : String) (formEP formEPVersion : Option String)
    (warnings : Option (List String)) :
    (FormEditor.handleImport cached cur schema formEP formEPVersion none warnings).cached.lastSchema = some schema
    ∧ (FormEditor.handleImport cached cur schema formEP formEPVersion none warnings).cached.stackIdx = cur
    ∧ (FormEditor.handleImport cached cur schema formEP formEPVersion none warnings).cached.engineProfile =
        formEP.map (fun executionPlatform =>
          { executionPlatform := executionPlatform,
            executionPlatformVersion := formEPVersion }) := by
  cases formEP <;> simp [FormEditor.handleImport]

/-- Claim C7: immediately after a successful import the form editor is
not dirty, and it becomes dirty at a later stack position exactly when
that position moved away from the baseline recorded at import time. -/
theorem handleImport_success_not_dirty (cached : FormEditor.Cached) (cur : Int)
    (schema : String) (formEP formEPVersion : Option String)
    (warnings : Option (List String)) :
    FormEditor.isDirty (FormEditor.handleImport cached cur schema formEP formEPVersion none warnings).cached cur = false
    ∧ ∀ p : Int,
        FormEditor.isDirty (FormEditor.handleImport cached cur schema formEP formEPVersion none warnings).cached p = true
          ↔ p ≠ cur := by
  cases formEP <;> simp [FormEditor.handleImport, FormEditor.isDirty]

/-- Claim C5 (divergence witness): on a failing import with warnings, the
code clears `lastSchema` and `engineProfile`, resets `importing` and
passes the error to `onImport`, but calls `onImport(error)` with no
second argument, so the warnings `["warning-1"]` are never surfaced. -/
theorem handleImport_failure_drops_warnings :
    FormEditor.handleImport
        { lastSchema := some "oldSchema", stackIdx := 3,
          engineProfile := some { executionPlatform := "Camunda Cloud",
                                  executionPlatformVersion := some "1.1" } }
        5 "not-json"
        none none
        (some "SyntaxError: Unexpected token") (some ["warning-1"]) =
      { cached := { lastSchema := none, stackIdx := 3, engineProfile := none },
        importing := false,
        onImportError := some "SyntaxError: Unexpected token",
        onImportWarnings := none }
    ∧ (none : Option (List String)) ≠ some ["warning-1"] := by
  exact ⟨rfl, by simp⟩

/-- Claim C3 (counterexample): with no import in flight and a schema that
differs from the cached `lastSchema` but equals the previous props'
schema, `checkImport` does not invoke `importSchema`, refuting the
claimed "if and only if". -/
theorem checkImport_counterexample :
    FormEditor.checkImport false "schemaB" (some "schemaB") none = false
    ∧ some "schemaB" ≠ (none : Option String) := by
  exact ⟨rfl, by simp⟩

/-- Claim C3 (amended): `importSchema` is invoked iff no import is in
flight, the supplied schema differs from the previous props' schema, and
it differs from the cached `lastSchema`. -/
theorem checkImport_iff (importing : Bool) (schema : String)
    (prevSchema lastSchema : Option String) :
    FormEditor.checkImport importing schema prevSchema lastSchema = true ↔
      (importing = false ∧ some schema ≠ prevSchema ∧ some schema ≠ lastSchema) := by
  unfold FormEditor.checkImport FormEditor.isImportNeeded
  cases importing
  · by_cases h : some schema = prevSchema <;> simp [h]
  · simp

/-- Claim C2: switching to a sheet distinct from the active one: with the
same provider the state only swaps the active sheet (`getXML` never runs,
`lastXML` untouched); with a different provider `getXML` runs and its
result is cached as `lastXML` together with the swap. -/
theorem switchSheet_spec (st : MultiSheetTab.SwitchState) (sheet : Sheet)
    (editorXML : String) (hne : sheet ≠ st.activeSheet) :
    (sheet.provider = st.activeSheet.provider →
      MultiSheetTab.switchSheet st sheet editorXML =
        ({ st with activeSheet := sheet }, false))
    ∧ (sheet.provider ≠ st.activeSheet.provider →
      MultiSheetTab.switchSheet st sheet editorXML =
        ({ activeSheet := sheet, lastXML := some editorXML }, true)) := by
  constructor <;> intro h <;> simp [MultiSheetTab.switchSheet, hne, h]

/-- Witness for C2: switching between two distinct sheets of the same
provider swaps only the active sheet and never fetches. -/
theorem switchSheet_spec_witness :
    ({ id := "sheet2", name := none, provider := 1, type := "form", order := some 2 } : Sheet) ≠
      ({ id := "sheet1", name := none, provider := 1, type := "form", order := some 1 } : Sheet)
    ∧ MultiSheetTab.switchSheet
        { activeSheet := { id := "sheet1", name := none, provider := 1, type := "form", order := some 1 },
          lastXML := none }
        { id := "sheet2", name := none, provider := 1, type := "form", order := some 2 }
        "document" =
      ({ activeSheet := { id := "sheet2", name := none, provider := 1, type := "form", order := some 2 },
         lastXML := none }, false) := by
  refine ⟨by decide, ?_⟩
  exact (switchSheet_spec
    { activeSheet := { id := "sheet1", name := none, provider := 1, type := "form", order := some 1 },
      lastXML := none }
    { id := "sheet2", name := none, provider := 1, type := "form", order := some 2 }
    "document" (by decide)).1 rfl

/-- `lastSchema || xml` coincides with `Option.getD` whenever the cached
schema is not the empty string. -/
theorem jsOrString_eq_getD (a : Option String) (b : String) (h : a ≠ some "") :
    FormEditor.jsOrString a b = a.getD b := by
  cases a with
  | none => rfl
  | some s =>
    have hs : s ≠ "" := fun he => h (by rw [he])
    simp [FormEditor.jsOrString, hs]

/-- Claim C10: `getXML` on a non-dirty editor returns the cached
`lastSchema` (falling back to the `xml` prop when none is cached) without
serializing or touching the cache; on a dirty editor it serializes the
form, caches the result as `lastSchema` with the current stack position
as new baseline, returns it, and leaves the editor non-dirty. -/
theorem getXML_spec (cached : FormEditor.Cached) (propsXml : String)
    (cur : Int) (save : String) (hls : cached.lastSchema ≠ some "") :
    (FormEditor.isDirty cached cur = false →
      FormEditor.getXML cached propsXml cur save =
        { xml := cached.lastSchema.getD propsXml, cached := cached, serialized := false })
    ∧ (FormEditor.isDirty cached cur = true →
      (FormEditor.getXML cached propsXml cur save).xml = save
      ∧ (FormEditor.getXML cached propsXml cur save).cached.lastSchema = some save
      ∧ (FormEditor.getXML cached propsXml cur save).cached.stackIdx = cur
      ∧ (FormEditor.getXML cached propsXml cur save).serialized = true
      ∧ FormEditor.isDirty (FormEditor.getXML cached propsXml cur save).cached cur = false) := by
  constructor
  · intro h
    have heq : cur = cached.stackIdx := by simpa [FormEditor.isDirty] using h
    simp [FormEditor.getXML, FormEditor.isDirty, heq,
      jsOrString_eq_getD cached.lastSchema propsXml hls]
  · intro h
    have hne : ¬cur = cached.stackIdx := by simpa [FormEditor.isDirty] using h
    simp [FormEditor.getXML, FormEditor.isDirty, hne]

/-- Witness for C10 on a concrete dirty editor state. -/
theorem getXML_spec_witness :
    ({ lastSchema := some "old", stackIdx := 0, engineProfile := none } : FormEditor.Cached).lastSchema ≠ some ""
    ∧ FormEditor.isDirty { lastSchema := some "old", stackIdx := 0, engineProfile := none } 2 = true
    ∧ (FormEditor.getXML { lastSchema := some "old", stackIdx := 0, engineProfile := none } "props" 2 "saved").cached.lastSchema = some "saved"
    ∧ FormEditor.isDirty (FormEditor.getXML { lastSchema := some "old", stackIdx := 0, engineProfile := none } "props" 2 "saved").cached 2 = false := by
  refine ⟨by simp, by decide, ?_, ?_⟩
  · exact ((getXML_spec { lastSchema := some "old", stackIdx := 0, engineProfile := none }
      "props" 2 "saved" (by simp)).2 (by decide)).2.1
  · exact ((getXML_spec { lastSchema := some "old", stackIdx := 0, engineProfile := none }
      "props" 2 "saved" (by simp)).2 (by decide)).2.2.2.2

instance sheetOrderTotal : IsTotal Sheet (fun a b => orderKey a ≤ orderKey b) :=
  ⟨fun a b => le_total (orderKey a) (orderKey b)⟩

instance sheetOrderTrans : IsTrans Sheet (fun a b => orderKey a ≤ orderKey b) :=
  ⟨fun _ _ _ hab hbc => le_trans hab hbc⟩

/-- `Array.prototype.find` by sheet id: when some element of `l` has id
`i`, `find?` returns such an element of `l`. -/
theorem find_by_id_mem (l : List Sheet) (i : String)
    (hex : ∃ s ∈ l, s.id = i) :
    ∃ s, l.find? (fun s => s.id == i) = some s ∧ s ∈ l ∧ s.id = i := by
  cases hfind : l.find? (fun s => s.id == i) with
  | none =>
    exfalso
    obtain ⟨s, hs, hid⟩ := hex
    have hnone := List.find?_eq_none.mp hfind s hs
    simp [hid] at hnone
  | some s =>
    refine ⟨s, rfl, List.mem_of_find?_eq_some hfind, ?_⟩
    simpa using List.find?_some hfind

/-- Claim C1: `sheetsChanged` produces exactly the cached sheets of other
providers plus the reported sheets wired to the active provider, each
with `order` defaulted to `0` when absent, sorted ascending by `order`;
and when a new active sheet is supplied and the result has a sheet of its
id, the active sheet becomes such an element of the result. -/
theorem sheetsChanged_spec (S : List Sheet) (a : Sheet) (L : List Sheet)
    (na : Option Sheet) :
    (MultiSheetTab.sheetsChanged S a L na).1.Perm
        (((S.filter (fun (s : Sheet) => s.provider != a.provider)) ++
            L.map (fun (s : Sheet) => { s with provider := a.provider })).map
          (fun (t : Sheet) => { t with order := some (orderKey t) }))
    ∧ (MultiSheetTab.sheetsChanged S a L na).1.Sorted (fun x y => orderKey x ≤ orderKey y)
    ∧ ∀ nas : Sheet, na = some nas →
        (∃ s ∈ (MultiSheetTab.sheetsChanged S a L na).1, s.id = nas.id) →
        ∃ s, (MultiSheetTab.sheetsChanged S a L na).2 = some s ∧
          s ∈ (MultiSheetTab.sheetsChanged S a L na).1 ∧ s.id = nas.id := by
  refine ⟨List.perm_insertionSort _ _, List.sorted_insertionSort _ _, ?_⟩
  intro nas hna hex
  subst hna
  have h2 : (MultiSheetTab.sheetsChanged S a L (some nas)).2 =
      (MultiSheetTab.sheetsChanged S a L (some nas)).1.find? (fun s => s.id == nas.id) := rfl
  rw [h2]
  exact find_by_id_mem _ nas.id hex

/-- Witness for C1: a cached list holding one sheet of the active
provider and one of another, a reported replacement sheet, and an
explicit new active sheet whose id occurs in the result. -/
theorem sheetsChanged_spec_witness :
    ∃ s : Sheet, (MultiSheetTab.sheetsChanged
        [{ id := "s1", name := none, provider := 1, type := "form", order := some 1 },
          { id := "s2", name := none, provider := 2, type := "xml", order := none }]
        { id := "s1", name := none, provider := 1, type := "form", order := some 1 }
        [{ id := "n1", name := some "New", provider := 7, type := "form", order := some 5 }]
        (some { id := "n1", name := some "New", provider := 7, type := "form", order := some 5 })).2 = some s
      ∧ s ∈ (MultiSheetTab.sheetsChanged
          [{ id := "s1", name := none, provider := 1, type := "form", order := some 1 },
            { id := "s2", name := none, provider := 2, type := "xml", order := none }]
          { id := "s1", name := none, provider := 1, type := "form", order := some 1 }
          [{ id := "n1", name := some "New", provider := 7, type := "form", order := some 5 }]
          (some { id := "n1", name := some "New", provider := 7, type := "form", order := some 5 })).1
      ∧ s.id = ({ id := "n1", name := some "New", provider := 7, type := "form", order := some 5 } : Sheet).id := by
  exact (sheetsChanged_spec
    [{ id := "s1", name := none, provider := 1, type := "form", order := some 1 },
      { id := "s2", name := none, provider := 2, type := "xml", order := none }]
    { id := "s1", name := none, provider := 1, type := "form", order := some 1 }
    [{ id := "n1", name := some "New", provider := 7, type := "form", order := some 5 }]
    (some { id := "n1", name := some "New", provider := 7, type := "form", order := some 5 })).2.2
    _ rfl (by decide)
